import Mathlib

/-!
Verification of the Socket.IO session and room-broadcast layer of the
Messaging-Dashboard backend (src/index.js) together with the Mongoose
schemas it relies on (src/models/Message.js, src/models/Chat.js).

The embedding is a step-function semantics: each socket event handler is
translated into a pure function from the server state (the connected-users
map, the room subscriptions, and the storage collaborator's collections)
to a new state plus a list of emitted outbound events. Opaque Mongo
ObjectIds and socket ids are modelled as natural numbers; fallibility of a
storage call is modelled by an explicit Boolean success flag, since the
handlers branch only on success versus a thrown error.
-/

/-- A persisted chat message, after messageSchema in src/models/Message.js:
fields sender, content, chatId and read (plus the document id). -/
structure Message where
  id : Nat
  sender : Nat
  content : String
  chatId : Nat
  read : Bool
  deriving DecidableEq

/-- The receiver path queried by the read_message handler. messageSchema
declares no receiver field and send_message never writes one, so every
stored message document lacks that path; a Mongo equality match of the
missing path against a (non-null) user id holds for no document. -/
def Message.receiver (_ : Message) : Option Nat := none

/-- A chat document, after chatSchema in src/models/Chat.js (the fields the
realtime layer touches: participants and the lastMessage pointer). -/
structure Chat where
  id : Nat
  participants : List Nat
  lastMessage : Option Nat
  deriving DecidableEq

/-- A stored user record, restricted to the presence fields the realtime
layer writes: status (online = true) and lastSeen. -/
structure StoredUser where
  id : Nat
  online : Bool
  lastSeen : Option Nat
  deriving DecidableEq

/-- Outbound events emitted by the handlers. userStatus is a global
broadcast (io.emit); the room-scoped events are expanded to one output per
target socket. errorTo is the unicast error event to the originator. -/
inductive Output where
  | userStatus (userId : Nat) (online : Bool)
  | newMessage (target : Nat) (messageId : Nat)
  | typingOut (target : Nat) (chatId : Nat) (isTyping : Bool)
  | messagesRead (target : Nat) (chatId : Nat) (userId : Nat)
  | errorTo (target : Nat) (message : String)
  deriving DecidableEq

/-- The server's state: the connectedUsers map (src/index.js line 85, a
JavaScript Map keyed by userId, modelled as an association list with
replace-on-set semantics), the socket-to-room subscription relation built
by socket.join, and the storage collaborator's collections. -/
structure ServerState where
  connectedUsers : List (Nat × Nat)
  subs : List (Nat × Nat)
  messages : List Message
  chats : List Chat
  users : List StoredUser
  nextMessageId : Nat
  deriving DecidableEq

/-- JavaScript Map.prototype.set: replace the entry with this key in place,
or append a new entry. -/
def mapSet (m : List (Nat × Nat)) (k v : Nat) : List (Nat × Nat) :=
  match m with
  | [] => [(k, v)]
  | p :: rest => if p.1 = k then (k, v) :: rest else p :: mapSet rest k v

/-- JavaScript Map.prototype.delete: drop the entry with this key. -/
def mapDelete (m : List (Nat × Nat)) (k : Nat) : List (Nat × Nat) :=
  m.filter (fun p => p.1 ≠ k)

/-- JavaScript Map.prototype.get. -/
def mapGet (m : List (Nat × Nat)) (k : Nat) : Option Nat :=
  (m.find? (fun p => p.1 = k)).map (fun p => p.2)

/-- Lookup of a stored user record by id. -/
def lookupUser (us : List StoredUser) (userId : Nat) : Option StoredUser :=
  us.find? (fun u => u.id = userId)

/-- The sockets currently subscribed to a room: the targets of io.to. -/
def roomMembers (st : ServerState) (chatId : Nat) : List Nat :=
  (st.subs.filter (fun p => p.2 = chatId)).map (fun p => p.1)

/-- The Socket.IO authentication middleware (io.use, src/index.js lines
63-82). verify models jwt.verify (some uid = token valid for uid, none =
verify throws); statusWriteOk models whether the User.findByIdAndUpdate
status write succeeds. A missing or empty token is refused up front; any
exception inside the try block — including a failing status write — lands
in the catch, which refuses the handshake with an authentication error.
Result: some uid when the connection is accepted as uid, none when it is
refused. -/
def ioUseAuth (token : Option String) (verify : String → Option Nat)
    (statusWriteOk : Nat → Bool) : Option Nat :=
  match token with
  | none => none
  | some t =>
    if t = "" then none
    else
      match verify t with
      | none => none
      | some uid => if statusWriteOk uid then some uid else none

/-- The connection handler (io.on connection, src/index.js lines 88-108):
set the user's entry in the connectedUsers map, broadcast user_status
online to everyone, and join the socket to every chat listing the user as
a participant. chatFindOk = false models a failing Chat.find, which is
caught and only logged: the connection proceeds with no subscriptions. -/
def onConnection (st : ServerState) (userId socketId : Nat) (chatFindOk : Bool) :
    ServerState × List Output :=
  let cu := mapSet st.connectedUsers userId socketId
  let joined :=
    if chatFindOk then
      st.subs ++ (st.chats.filter (fun c => c.participants.contains userId)).map
        (fun c => (socketId, c.id))
    else st.subs
  ({ st with connectedUsers := cu, subs := joined },
   [Output.userStatus userId true])

/-- A full connection attempt: the authentication middleware gates the
connection handler, so a refused handshake creates no state and emits
nothing. -/
def connectionAttempt (st : ServerState) (token : Option String)
    (verify : String → Option Nat) (statusWriteOk : Nat → Bool)
    (socketId : Nat) (chatFindOk : Bool) : ServerState × List Output :=
  match ioUseAuth token verify statusWriteOk with
  | none => (st, [])
  | some uid => onConnection st uid socketId chatFindOk

/-- The payload of a send_message event. -/
structure SendPayload where
  content : String
  chatId : Nat
  deriving DecidableEq

/-- The send_message handler (src/index.js lines 111-139). data = none
models a missing or non-object payload, whose destructuring throws inside
the try block. An empty content fails the schema's required validation
when newMessage.save() runs; saveOk and chatUpdateOk model persistence
failures of newMessage.save() and Chat.findByIdAndUpdate respectively.
Every failure is caught and answered with the error event to the
originator only; on full success the chat's lastMessage pointer is set and
new_message is emitted to the whole room via io.to (originator included,
when subscribed). -/
def sendMessage (st : ServerState) (userId socketId : Nat)
    (data : Option SendPayload) (saveOk chatUpdateOk : Bool) :
    ServerState × List Output :=
  match data with
  | none => (st, [Output.errorTo socketId "Failed to send message"])
  | some d =>
    if d.content = "" then
      (st, [Output.errorTo socketId "Failed to send message"])
    else if saveOk then
      let msg : Message :=
        { id := st.nextMessageId, sender := userId, content := d.content,
          chatId := d.chatId, read := false }
      let st1 := { st with messages := st.messages ++ [msg],
                           nextMessageId := st.nextMessageId + 1 }
      if chatUpdateOk then
        let st2 := { st1 with chats := st1.chats.map (fun c =>
          if c.id = d.chatId then { c with lastMessage := some msg.id } else c) }
        (st2, (roomMembers st d.chatId).map (fun t => Output.newMessage t msg.id))
      else
        (st1, [Output.errorTo socketId "Failed to send message"])
    else
      (st, [Output.errorTo socketId "Failed to send message"])

/-- The payload of a typing event. -/
structure TypingPayload where
  chatId : Nat
  isTyping : Bool
  deriving DecidableEq

/-- Result of the typing handler: either a list of emitted events, or an
exception that escaped the handler (it has no try/catch). -/
inductive TypingResult where
  | ok (outs : List Output)
  | thrown
  deriving DecidableEq

/-- The events of a TypingResult (none when the handler threw). -/
def TypingResult.outputs : TypingResult → List Output
  | TypingResult.ok outs => outs
  | TypingResult.thrown => []

/-- The typing handler (src/index.js lines 142-147): it has no try/catch,
so destructuring a missing or non-object payload throws a TypeError that
escapes the handler. On a well-formed payload the typing event goes to the
room excluding the originator (socket.to). -/
def typing (st : ServerState) (socketId : Nat) (data : Option TypingPayload) :
    TypingResult :=
  match data with
  | none => TypingResult.thrown
  | some d =>
    TypingResult.ok
      (((roomMembers st d.chatId).filter (fun t => t ≠ socketId)).map
        (fun t => Output.typingOut t d.chatId d.isTyping))

/-- Whether the Node.js process is still alive. -/
inductive ProcessFate where
  | running
  | exited (code : Nat)
  deriving DecidableEq

/-- The uncaughtException handler (src/index.js lines 209-212): log the
error and process.exit(1). -/
def onUncaughtException : ProcessFate := ProcessFate.exited 1

/-- Fate of the process after dispatching a typing event: an exception
escaping the synchronous handler propagates out of the socket's packet
dispatch as an uncaught exception and reaches the uncaughtException
handler. -/
def typingFate (st : ServerState) (socketId : Nat) (data : Option TypingPayload) :
    ProcessFate :=
  match typing st socketId data with
  | TypingResult.thrown => onUncaughtException
  | TypingResult.ok _ => ProcessFate.running

/-- The payload of a read_message event. -/
structure ReadPayload where
  chatId : Nat
  deriving DecidableEq

/-- The read_message handler (src/index.js lines 150-163). The updateMany
filter from the source is (chatId, receiver: socket.userId, read: false);
since no stored message has a receiver path (Message.receiver), the filter
matches a document exactly when its chatId and read flag match AND its
(absent) receiver equals the caller. updateOk = false models a thrown
storage error, caught and answered with the error event. On success the
messages_read event goes to the room excluding the originator
(socket.to). -/
def readMessage (st : ServerState) (userId socketId : Nat)
    (data : Option ReadPayload) (updateOk : Bool) : ServerState × List Output :=
  match data with
  | none => (st, [Output.errorTo socketId "Failed to mark messages as read"])
  | some d =>
    if updateOk then
      let msgs := st.messages.map (fun m =>
        if m.chatId = d.chatId ∧ m.receiver = some userId ∧ m.read = false then
          { m with read := true }
        else m)
      ({ st with messages := msgs },
       ((roomMembers st d.chatId).filter (fun t => t ≠ socketId)).map
         (fun t => Output.messagesRead t d.chatId userId))
    else
      (st, [Output.errorTo socketId "Failed to mark messages as read"])

/-- The disconnect handler (src/index.js lines 166-184): delete the user's
entry from the connectedUsers map unconditionally, then try to write
status = offline and lastSeen = now to storage and broadcast user_status
offline. A failing storage write (storageOk = false) is caught after the
delete and only logged: no broadcast is emitted. -/
def onDisconnect (st : ServerState) (userId _socketId now : Nat)
    (storageOk : Bool) : ServerState × List Output :=
  let cu := mapDelete st.connectedUsers userId
  if storageOk then
    ({ st with connectedUsers := cu,
               users := st.users.map (fun u =>
                 if u.id = userId then
                   { u with online := false, lastSeen := some now }
                 else u) },
     [Output.userStatus userId false])
  else
    ({ st with connectedUsers := cu }, [])

/-! Concrete fixtures used by counterexamples and witnesses. -/

/-- The empty initial server state. -/
def st0 : ServerState :=
  { connectedUsers := [], subs := [], messages := [], chats := [],
    users := [], nextMessageId := 0 }

/-- A direct chat between users 1 and 2. -/
def chat1 : Chat := { id := 1, participants := [1, 2], lastMessage := none }

/-- One unread message in chat 1 authored by user 2. -/
def msg0 : Message :=
  { id := 0, sender := 2, content := "hi", chatId := 1, read := false }

/-- Chat 1 with the unread message msg0, and sockets 10 (user 1) and
20 (user 2) subscribed to it. -/
def stC1 : ServerState :=
  { connectedUsers := [(1, 10), (2, 20)], subs := [(10, 1), (20, 1)],
    messages := [msg0], chats := [chat1], users := [], nextMessageId := 1 }

/-- State after user 1 connects with socket 10. -/
def stA : ServerState := (onConnection st0 1 10 true).1

/-- State after user 1 additionally connects with socket 20. -/
def stB : ServerState := (onConnection stA 1 20 true).1

/-- Socket 20 (user 2) subscribed to chat 1; user 1's socket 10 is not. -/
def stC3 : ServerState :=
  { connectedUsers := [(2, 20)], subs := [(20, 1)], messages := [],
    chats := [chat1], users := [], nextMessageId := 0 }

/-- A token verifier accepting exactly the token tok for user 7. -/
def verifyEx : String → Option Nat := fun t => if t = "tok" then some 7 else none

/-- Stored presence record for user 1. -/
def user1 : StoredUser := { id := 1, online := true, lastSeen := none }

/-- A state whose storage holds user 1's presence record. -/
def stC5 : ServerState := { st0 with users := [user1] }

/-! Helper lemmas about the map and lookup operations. -/

theorem mapGet_mapSet (m : List (Nat × Nat)) (k v : Nat) :
    mapGet (mapSet m k v) k = some v := by
  induction m with
  | nil => simp [mapSet, mapGet, List.find?]
  | cons p rest ih =>
    by_cases h : p.1 = k
    · simp [mapSet, mapGet, List.find?, h]
    · simpa [mapSet, mapGet, List.find?, h] using ih

theorem mapGet_mapDelete (m : List (Nat × Nat)) (k : Nat) :
    mapGet (mapDelete m k) k = none := by
  induction m with
  | nil => simp [mapDelete, mapGet]
  | cons p rest ih =>
    by_cases h : p.1 = k
    · rw [show mapDelete (p :: rest) k = mapDelete rest k by
        simp [mapDelete, h]]
      exact ih
    · rw [show mapDelete (p :: rest) k = p :: mapDelete rest k by
        simp [mapDelete, h]]
      simpa [mapGet, List.find?, h] using ih

theorem lookupUser_map_update (us : List StoredUser) (userId : Nat)
    (f : StoredUser → StoredUser) (hid : ∀ x, (f x).id = x.id)
    (rec : StoredUser) (h : lookupUser us userId = some rec) :
    lookupUser (us.map f) userId = some (f rec) := by
  induction us with
  | nil => simp [lookupUser] at h
  | cons a rest ih =>
    by_cases ha : a.id = userId
    · simp [lookupUser, List.find?, ha] at h
      subst h
      simp [lookupUser, List.find?, hid, ha]
    · simp [lookupUser, List.find?, ha] at h
      simpa [lookupUser, List.find?, hid, ha] using ih h

/-! Claims C1 to C10. -/

/-- C1: failing input for the read_message claim. Chat 1 holds exactly one
unread message (msg0), authored by user 2; user 1 issues read_message for
chat 1. The claim requires msg0 to be marked read. The handler's
updateMany filter queries the receiver path, which messageSchema does not
define, so no document matches: the state's messages are unchanged and
msg0 is still unread afterwards. -/
theorem C1_receiver_filter_marks_nothing :
    msg0.sender ≠ 1 ∧ msg0.read = false ∧
    (readMessage stC1 1 10 (some { chatId := 1 }) true).1.messages = [msg0] := by
  decide

/-- C2 counterexample: user 1 registers socket 10 and then socket 20. The
second registration overwrites the first entry, so the registry no longer
holds socket 10's entry; and when socket 10 later disconnects, the user's
entry is removed entirely although socket 20 is still live, so the user is
no longer online in the registry. -/
theorem C2_counterexample :
    stA.connectedUsers = [(1, 10)] ∧
    stB.connectedUsers = [(1, 20)] ∧
    mapGet (onDisconnect stB 1 10 5 true).1.connectedUsers 1 = none := by
  decide

/-- C2 amended: the connectedUsers registry keeps at most one connection
per user: registering sets the user's entry to the new socket id,
overwriting any previous entry, and a disconnect of any of the user's
sockets removes the user's entry entirely (whether or not the storage
write succeeds), so the user appears offline afterwards. -/
theorem C2_single_entry_registry (st : ServerState) (u s s2 now : Nat)
    (chatFindOk : Bool) :
    mapGet (onConnection st u s chatFindOk).1.connectedUsers u = some s ∧
    mapGet (onDisconnect st u s2 now true).1.connectedUsers u = none ∧
    mapGet (onDisconnect st u s2 now false).1.connectedUsers u = none := by
  refine ⟨?_, ?_, ?_⟩
  · simpa [onConnection] using mapGet_mapSet st.connectedUsers u s
  · simpa [onDisconnect] using mapGet_mapDelete st.connectedUsers u
  · simpa [onDisconnect] using mapGet_mapDelete st.connectedUsers u

/-- C2 witness: the amended statement at a concrete state. -/
theorem C2_single_entry_registry_witness :
    mapGet (onConnection stA 1 20 true).1.connectedUsers 1 = some 20 ∧
    mapGet (onDisconnect stA 1 10 5 true).1.connectedUsers 1 = none ∧
    mapGet (onDisconnect stA 1 10 5 false).1.connectedUsers 1 = none :=
  C2_single_entry_registry stA 1 20 10 5 true

/-- C3 counterexample: user 1 (socket 10) is not subscribed to chat 1, yet
their send_message with non-empty content is persisted, and new_message is
fanned out to subscribed socket 20 — the handler never validates the
originator's subscription and sends no error. -/
theorem C3_counterexample :
    (10, 1) ∉ stC3.subs ∧
    (sendMessage stC3 1 10 (some { content := "hi", chatId := 1 }) true true).1.messages ≠ [] ∧
    Output.newMessage 20 0 ∈
      (sendMessage stC3 1 10 (some { content := "hi", chatId := 1 }) true true).2 := by
  decide

/-- C3 amended: only the content is validated (indirectly, by the schema's
required constraint at save time): a send_message with empty content, or a
missing/non-object payload, is answered with the error event unicast to
the originator only, the state — messages, lastMessage pointers,
everything — is unchanged, and no new_message is fanned out. The
originator's subscription to the target chat is not checked. -/
theorem C3_invalid_send_rejected (st : ServerState) (u s c : Nat)
    (saveOk chatUpdateOk : Bool) :
    sendMessage st u s (some { content := "", chatId := c }) saveOk chatUpdateOk =
      (st, [Output.errorTo s "Failed to send message"]) ∧
    sendMessage st u s none saveOk chatUpdateOk =
      (st, [Output.errorTo s "Failed to send message"]) := by
  constructor
  · simp [sendMessage]
  · rfl

/-- C3 witness: the amended statement at a concrete state. -/
theorem C3_invalid_send_rejected_witness :
    sendMessage stC3 1 10 (some { content := "", chatId := 1 }) true true =
      (stC3, [Output.errorTo 10 "Failed to send message"]) ∧
    sendMessage stC3 1 10 none true true =
      (stC3, [Output.errorTo 10 "Failed to send message"]) :=
  C3_invalid_send_rejected stC3 1 10 1 true true

/-- C4 counterexample: a valid token for user 7 whose status write to
storage fails. The claim requires the connection to still be accepted and
registered; instead the middleware's catch refuses the handshake, so no
registration, no subscription and no event occurs. -/
theorem C4_counterexample :
    verifyEx "tok" = some 7 ∧
    ioUseAuth (some "tok") verifyEx (fun _ => false) = none ∧
    connectionAttempt st0 (some "tok") verifyEx (fun _ => false) 10 true = (st0, []) := by
  decide

/-- C4 amended: when the storage write setting the user's status to online
fails during the authentication middleware, the exception is caught and
the connection is refused with an authentication error: the handshake is
not accepted and no state is created and nothing is emitted. -/
theorem C4_status_write_failure_refuses (st : ServerState) (t : String)
    (verify : String → Option Nat) (uid socketId : Nat) (chatFindOk : Bool)
    (ht : t ≠ "") (hv : verify t = some uid) :
    ioUseAuth (some t) verify (fun _ => false) = none ∧
    connectionAttempt st (some t) verify (fun _ => false) socketId chatFindOk =
      (st, []) := by
  constructor
  · simp [ioUseAuth, ht, hv]
  · simp [connectionAttempt, ioUseAuth, ht, hv]

/-- C4 witness: the amended statement at a concrete token and verifier. -/
theorem C4_status_write_failure_refuses_witness :
    ioUseAuth (some "tok") verifyEx (fun _ => false) = none ∧
    connectionAttempt st0 (some "tok") verifyEx (fun _ => false) 10 true =
      (st0, []) :=
  C4_status_write_failure_refuses st0 "tok" verifyEx 7 10 true
    (by decide) (by decide)

/-- C5 counterexample: user 1 is already online (the registry holds their
socket 10), yet a second connection with socket 20 still broadcasts
user_status online — the claim allows the broadcast only on the
offline-to-online transition, not on subsequent connections of an
already-online user. -/
theorem C5_counterexample :
    mapGet stA.connectedUsers 1 = some 10 ∧
    (onConnection stA 1 20 true).2 = [Output.userStatus 1 true] := by
  decide

/-- C5 amended: a user_status online broadcast is emitted on every
connection registration, whether or not the user was already online; on a
disconnect whose storage write succeeds, exactly one user_status offline
broadcast is emitted and the user's stored lastSeen is set to the
disconnect time itself (hence no earlier than it). -/
theorem C5_status_broadcast_every_lifecycle (st : ServerState)
    (u s s2 now : Nat) (chatFindOk : Bool) (rec : StoredUser)
    (hrec : lookupUser st.users u = some rec) :
    (onConnection st u s chatFindOk).2 = [Output.userStatus u true] ∧
    (onDisconnect st u s2 now true).2 = [Output.userStatus u false] ∧
    (lookupUser (onDisconnect st u s2 now true).1.users u).map
      StoredUser.lastSeen = some (some now) := by
  refine ⟨rfl, rfl, ?_⟩
  have hupd := lookupUser_map_update st.users u
    (fun x => if x.id = u then { x with online := false, lastSeen := some now }
              else x)
    (by intro x; dsimp only; split <;> rfl) rec hrec
  have hrecid : rec.id = u := by
    have := List.find?_some hrec
    simpa using this
  simp [onDisconnect, hupd, hrecid]

/-- C5 witness: the amended statement at a concrete state holding user 1's
presence record. -/
theorem C5_status_broadcast_every_lifecycle_witness :
    (onConnection stC5 1 10 true).2 = [Output.userStatus 1 true] ∧
    (onDisconnect stC5 1 11 42 true).2 = [Output.userStatus 1 false] ∧
    (lookupUser (onDisconnect stC5 1 11 42 true).1.users 1).map
      StoredUser.lastSeen = some (some 42) :=
  C5_status_broadcast_every_lifecycle stC5 1 10 11 42 true user1 (by decide)

/-- C6 counterexample: a typing event with a missing (non-object) payload
throws inside the handler, which has no try/catch; the exception escapes
as an uncaught exception and the uncaughtException handler exits the
process with code 1 — no error response is sent and the process does not
survive, although the claim requires a no-op with an error response that
never crashes the process. -/
theorem C6_counterexample :
    typing st0 10 none = TypingResult.thrown ∧
    typingFate st0 10 none = ProcessFate.exited 1 := by
  decide

/-- C6 amended: a malformed send_message or read_message payload is a
no-op on shared state apart from the error event unicast to the
originator, and leaves the process running; a malformed typing payload,
however, raises an exception that escapes the handler and the process
exits with code 1 via the uncaughtException handler. -/
theorem C6_malformed_events (st : ServerState) (u s : Nat)
    (saveOk chatUpdateOk updateOk : Bool) :
    sendMessage st u s none saveOk chatUpdateOk =
      (st, [Output.errorTo s "Failed to send message"]) ∧
    readMessage st u s none updateOk =
      (st, [Output.errorTo s "Failed to mark messages as read"]) ∧
    typingFate st s none = ProcessFate.exited 1 :=
  ⟨rfl, rfl, rfl⟩

/-- C6 witness: the amended statement at a concrete state. -/
theorem C6_malformed_events_witness :
    sendMessage st0 1 10 none true true =
      (st0, [Output.errorTo 10 "Failed to send message"]) ∧
    readMessage st0 1 10 none true =
      (st0, [Output.errorTo 10 "Failed to mark messages as read"]) ∧
    typingFate st0 10 none = ProcessFate.exited 1 :=
  C6_malformed_events st0 1 10 true true true

/-- C7: persistence precedes fan-out, and successful sends are delivered
room-wide. First conjunct: every new_message output of the send_message
handler names a message persisted in the resulting state, over all
payloads and storage outcomes — so no connection ever receives a
new_message for a message that failed to persist. Second conjunct: on
fully successful processing of a well-formed non-empty payload, exactly
one Message record is appended and new_message is delivered to exactly the
connections subscribed to the chat (the originator's own subscribed
sockets included). -/
theorem C7_persist_before_fanout (st : ServerState) (u s : Nat)
    (data : Option SendPayload) (saveOk chatUpdateOk : Bool) :
    (∀ t mid,
      Output.newMessage t mid ∈ (sendMessage st u s data saveOk chatUpdateOk).2 →
      ∃ m, m ∈ (sendMessage st u s data saveOk chatUpdateOk).1.messages ∧
        m.id = mid) ∧
    (∀ d, data = some d → d.content ≠ "" → saveOk = true → chatUpdateOk = true →
      (sendMessage st u s data saveOk chatUpdateOk).1.messages =
        st.messages ++
          [{ id := st.nextMessageId, sender := u, content := d.content,
             chatId := d.chatId, read := false }] ∧
      (sendMessage st u s data saveOk chatUpdateOk).2 =
        (roomMembers st d.chatId).map
          (fun t => Output.newMessage t st.nextMessageId)) := by
  constructor
  · intro t mid hmem
    match data with
    | none => simp [sendMessage] at hmem
    | some d =>
      by_cases hc : d.content = ""
      · simp [sendMessage, hc] at hmem
      · cases saveOk with
        | false => simp [sendMessage, hc] at hmem
        | true =>
          cases chatUpdateOk with
          | false => simp [sendMessage, hc] at hmem
          | true =>
            simp only [sendMessage, hc, if_false, if_true] at hmem ⊢
            simp only [List.mem_map] at hmem
            obtain ⟨x, _, hx⟩ := hmem
            refine ⟨{ id := st.nextMessageId, sender := u, content := d.content,
                      chatId := d.chatId, read := false }, ?_, ?_⟩
            · simp
            · simpa using (Output.newMessage.injEq _ _ _ _).mp hx |>.2
  · intro d hd hc hs hcu
    subst hd; subst hs; subst hcu
    constructor
    · simp [sendMessage, hc]
    · simp [sendMessage, hc]

/-- C7 witness: a successful send by user 1 in a chat with two subscribed
sockets, 10 (the originator's) and 20. -/
theorem C7_persist_before_fanout_witness :
    (sendMessage stC1 1 10 (some { content := "yo", chatId := 1 }) true true).1.messages =
      stC1.messages ++
        [{ id := stC1.nextMessageId, sender := 1, content := "yo",
           chatId := 1, read := false }] ∧
    (sendMessage stC1 1 10 (some { content := "yo", chatId := 1 }) true true).2 =
      (roomMembers stC1 1).map
        (fun t => Output.newMessage t stC1.nextMessageId) :=
  (C7_persist_before_fanout stC1 1 10 (some { content := "yo", chatId := 1 })
    true true).2 { content := "yo", chatId := 1 } rfl (by decide) rfl rfl

/-- C8: a connection attempt presenting no credential token is refused by
the authentication middleware before the connection handler runs: the
whole server state — connectedUsers registry, subscriptions, messages,
chats, stored users — is unchanged, and nothing is emitted, in particular
no user_status broadcast. -/
theorem C8_no_token_refused (st : ServerState) (verify : String → Option Nat)
    (statusWriteOk : Nat → Bool) (socketId : Nat) (chatFindOk : Bool) :
    connectionAttempt st none verify statusWriteOk socketId chatFindOk =
      (st, []) :=
  rfl

/-- C8 witness: a tokenless attempt against a populated state. -/
theorem C8_no_token_refused_witness :
    connectionAttempt stC1 none verifyEx (fun _ => true) 30 true =
      (stC1, []) :=
  C8_no_token_refused stC1 verifyEx (fun _ => true) 30 true

/-- C9: typing and read_message fan out through socket.to: a socket
receives the typing event, respectively the messages_read event, exactly
when it is subscribed to the room and is not the originating socket — so
the originator never receives its own event and every other subscribed
connection does. -/
theorem C9_excludes_originator (st : ServerState) (u s c : Nat) (b : Bool) :
    (∀ t, Output.typingOut t c b ∈
        (typing st s (some { chatId := c, isTyping := b })).outputs ↔
      (t ∈ roomMembers st c ∧ t ≠ s)) ∧
    (∀ t, Output.messagesRead t c u ∈
        (readMessage st u s (some { chatId := c }) true).2 ↔
      (t ∈ roomMembers st c ∧ t ≠ s)) := by
  constructor <;> intro t <;>
    simp [typing, readMessage, TypingResult.outputs, List.mem_filter,
      List.mem_map]

/-- C9 witness: in stC1, socket 20 (subscribed, not the originator)
receives both events originated by socket 10. -/
theorem C9_excludes_originator_witness :
    (Output.typingOut 20 1 true ∈
        (typing stC1 10 (some { chatId := 1, isTyping := true })).outputs ↔
      (20 ∈ roomMembers stC1 1 ∧ 20 ≠ 10)) ∧
    (Output.messagesRead 20 1 1 ∈
        (readMessage stC1 1 10 (some { chatId := 1 }) true).2 ↔
      (20 ∈ roomMembers stC1 1 ∧ 20 ≠ 10)) :=
  ⟨(C9_excludes_originator stC1 1 10 1 true).1 20,
   (C9_excludes_originator stC1 1 10 1 true).2 20⟩

/-- C10: the disconnect handler removes the user's connectedUsers entry
unconditionally — the registry is the same mapDelete result whether the
storage write succeeds or fails — and when the storage write fails the
error is swallowed: no output at all is emitted (in particular no
user_status offline broadcast) and the stored users are untouched, so
remaining clients are never informed. -/
theorem C10_registry_removed_error_swallowed (st : ServerState)
    (u s now : Nat) :
    (onDisconnect st u s now true).1.connectedUsers =
      mapDelete st.connectedUsers u ∧
    (onDisconnect st u s now false).1.connectedUsers =
      mapDelete st.connectedUsers u ∧
    (onDisconnect st u s now false).2 = [] ∧
    (onDisconnect st u s now false).1.users = st.users :=
  ⟨rfl, rfl, rfl, rfl⟩

/-- C10 witness: disconnecting user 1 from stC1 with a failing storage
write. -/
theorem C10_registry_removed_error_swallowed_witness :
    (onDisconnect stC1 1 10 5 true).1.connectedUsers =
      mapDelete stC1.connectedUsers 1 ∧
    (onDisconnect stC1 1 10 5 false).1.connectedUsers =
      mapDelete stC1.connectedUsers 1 ∧
    (onDisconnect stC1 1 10 5 false).2 = [] ∧
    (onDisconnect stC1 1 10 5 false).1.users = stC1.users :=
  C10_registry_removed_error_swallowed stC1 1 10 5
